import Mathlib

/-!
Shallow embedding of the babs route-and-compliance planning engine
(src/backend: optily.py, compliance.py, trucks.py, optimizer.py, models.py).

Conventions of the embedding:
* Python floats are modelled as exact rationals (`ℚ`); decimal literals such
  as `0.8` denote the exact rational 4/5.
* The source file optily.py contains unresolved git merge-conflict markers;
  the `HEAD` side (the EU-compliant planner, whose line numbers the claims
  cite) is the code embedded here.
* The routing provider (tomtom.get_route) is an oracle: a function from a
  coordinate pair to an optional route record, packaged in `Env`.
* Geometric helpers whose bodies use transcendental floating-point math
  (haversine interpolation in `_find_point_at_distance`, the square root in
  `_euclidean_distance` and `_normalize`) are parameterised by the
  environment: the claims under verification do not depend on their values,
  and every theorem below is proved for all instantiations.
* Fallible calls return `Option`; a Python exception that escapes to the
  `try/except` wrapper of `plan_route` is modelled by the error response it
  produces there.
-/

namespace Babs

/-- Geographic point `(latitude, longitude)`, as the Python `(lat, lng)` tuples. -/
abbrev Point := ℚ × ℚ

/-- models.py `TruckModel`. -/
structure TruckModel where
  manufacturer : String
  model : String
  battery_capacity : ℚ
  consumption : ℚ
  range : ℚ
deriving DecidableEq

/-- models.py `ChargingStation`. -/
structure ChargingStation where
  id : Int
  country : String
  latitude : ℚ
  longitude : ℚ
  truck_suitability : String
  operator_name : String
  max_power_kW : ℚ
  price_per_kWh : ℚ
deriving DecidableEq

/-- The record returned by tomtom.get_route: distance in meters, duration in
seconds, and the polyline points. -/
structure RouteData where
  distance : ℚ
  duration : ℚ
  coordinates : List Point
deriving DecidableEq

/-- The external environment of the planner: the routing-provider oracle and
the transcendental geometric helpers (see the module docstring). -/
structure Env where
  get_route : Point → Point → Option RouteData
  find_point_at_distance : Point → Point → ℚ → Point
  sqrt : ℚ → ℚ

/- ----------------------------------------------------------------- -/
/- trucks.py                                                          -/
/- ----------------------------------------------------------------- -/

/-- trucks.py `calculate_energy_consumption`: `distance_km * truck.consumption`. -/
def calculate_energy_consumption (distance_km : ℚ) (truck : TruckModel) : ℚ :=
  distance_km * truck.consumption

/-- trucks.py `calculate_max_range`: `battery_level / truck.consumption`. -/
def calculate_max_range (truck : TruckModel) (battery_level : ℚ) : ℚ :=
  battery_level / truck.consumption

/-- trucks.py `calculate_charging_time` (lines 68-103): cap the target at the
battery capacity, return 0 when nothing is to be charged, otherwise the time
in seconds to charge the difference at the given power. -/
def calculate_charging_time (current_level target_level : ℚ) (truck : TruckModel)
    (charging_power : ℚ) : ℚ :=
  let target_level := min target_level truck.battery_capacity
  let energy_to_charge := target_level - current_level
  if energy_to_charge ≤ 0 then 0
  else
    let charging_time_hours := energy_to_charge / charging_power
    charging_time_hours * 3600

/- ----------------------------------------------------------------- -/
/- compliance.py                                                      -/
/- ----------------------------------------------------------------- -/

/-- models.py `DriverBreakType`. -/
inductive DriverBreakType where
  | short_break
  | long_rest
deriving DecidableEq

/-- models.py `DriverBreak` (the compliance.py flavour, times in seconds). -/
structure DriverBreak where
  break_type : DriverBreakType
  location : Point
  start_time : ℚ
  duration : ℚ
deriving DecidableEq

/-- compliance.py `MAX_CONTINUOUS_DRIVING_TIME` = 4.5 h in seconds. -/
def MAX_CONTINUOUS_DRIVING_TIME : ℚ := 4.5 * 3600

/-- compliance.py `SHORT_BREAK_DURATION` = 45 min in seconds. -/
def SHORT_BREAK_DURATION : ℚ := 45 * 60

/-- compliance.py `MAX_DAILY_DRIVING_TIME` = 9 h in seconds. -/
def MAX_DAILY_DRIVING_TIME : ℚ := 9 * 3600

/-- compliance.py `LONG_REST_DURATION` = 11 h in seconds. -/
def LONG_REST_DURATION : ℚ := 11 * 3600

/-- The loop state of compliance.py `calculate_required_breaks`:
`accumulated_driving`, `total_driving_today`, `current_time`, the enumeration
index `i`, and the breaks list built so far. -/
structure ComplianceState where
  accumulated_driving : ℚ
  total_driving_today : ℚ
  current_time : ℚ
  idx : Nat
  breaks : List DriverBreak
deriving DecidableEq

/-- One iteration of the `for i, duration in enumerate(segment_durations)` loop
of compliance.py `calculate_required_breaks` (lines 39-80).  The Python
expression `route_points[min(i + 1, len(route_points) - 1)]` is totalised with
a default point; it is only reached on the index the source also uses. -/
def compliance_step (route_points : List Point) (s : ComplianceState)
    (duration : ℚ) : ComplianceState :=
  let acc := s.accumulated_driving + duration
  let daily := s.total_driving_today + duration
  let time := s.current_time + duration
  let loc := route_points.getD (min (s.idx + 1) (route_points.length - 1)) (0, 0)
  if MAX_CONTINUOUS_DRIVING_TIME ≤ acc then
    let time2 := time + SHORT_BREAK_DURATION
    let breaks2 :=
      s.breaks ++ [⟨DriverBreakType.short_break, loc, time, SHORT_BREAK_DURATION⟩]
    if MAX_DAILY_DRIVING_TIME ≤ daily then
      { accumulated_driving := 0, total_driving_today := 0,
        current_time := time2 + LONG_REST_DURATION, idx := s.idx + 1,
        breaks := breaks2 ++
          [⟨DriverBreakType.long_rest, loc, time2, LONG_REST_DURATION⟩] }
    else
      { accumulated_driving := 0, total_driving_today := daily,
        current_time := time2, idx := s.idx + 1, breaks := breaks2 }
  else
    if MAX_DAILY_DRIVING_TIME ≤ daily then
      { accumulated_driving := 0, total_driving_today := 0,
        current_time := time + LONG_REST_DURATION, idx := s.idx + 1,
        breaks := s.breaks ++
          [⟨DriverBreakType.long_rest, loc, time, LONG_REST_DURATION⟩] }
    else
      { accumulated_driving := acc, total_driving_today := daily,
        current_time := time, idx := s.idx + 1, breaks := s.breaks }

/-- compliance.py `calculate_required_breaks` (lines 12-82). -/
def calculate_required_breaks (route_duration : ℚ) (route_points : List Point)
    (segment_durations : List ℚ) : List DriverBreak :=
  if route_duration ≤ MAX_CONTINUOUS_DRIVING_TIME then []
  else (segment_durations.foldl (compliance_step route_points)
          ⟨0, 0, 0, 0, []⟩).breaks

/- ----------------------------------------------------------------- -/
/- optily.py constants and small helpers                              -/
/- ----------------------------------------------------------------- -/

/-- optily.py `MAX_CONTINUOUS_DRIVING_HOURS` = 4.5. -/
def MAX_CONTINUOUS_DRIVING_HOURS : ℚ := 4.5

/-- optily.py `SHORT_BREAK_DURATION_HOURS` = 0.75. -/
def SHORT_BREAK_DURATION_HOURS : ℚ := 0.75

/-- optily.py `MAX_DAILY_DRIVING_HOURS` = 9.0. -/
def MAX_DAILY_DRIVING_HOURS : ℚ := 9.0

/-- optily.py `LONG_REST_DURATION_HOURS` = 11.0. -/
def LONG_REST_DURATION_HOURS : ℚ := 11.0

/-- optily.py local `MAX_ALLOWED_DIRECT_DRIVING_HOURS` (line 142) = 4.5. -/
def MAX_ALLOWED_DIRECT_DRIVING_HOURS : ℚ := 4.5

/-- optily.py lines 148-155: the feasibility check before taking the direct
route from the origin.  `direct_duration` is the value of
`_get_route_duration`, i.e. the provider's travel time divided by 60
(minutes); the code compares it against `MAX_ALLOWED_DIRECT_DRIVING_HOURS`
without converting to minutes. -/
def origin_direct_check (truck : TruckModel) (current_battery direct_distance
    direct_duration : ℚ) : Bool :=
  let energy_needed := calculate_energy_consumption direct_distance truck
  let max_usable_battery := truck.battery_capacity * 0.8
  let is_feasible_eu_compliant :=
    decide (direct_duration ≤ MAX_ALLOWED_DIRECT_DRIVING_HOURS)
  let is_feasible_battery :=
    decide (current_battery ≥ energy_needed) &&
      decide (energy_needed ≤ max_usable_battery)
  is_feasible_battery && is_feasible_eu_compliant

/-- The spec's `DirectReachable(truck, currentCharge, distanceKm, durationMin)`
(§4.1), stated from the spec's words for comparison with the code: true iff
energy needed ≤ 80% of battery capacity AND energy needed ≤ currentCharge AND
`durationMin` is within the continuous-driving limit of 4.5 hours
(270 minutes). -/
def DirectReachable_spec (truck : TruckModel) (currentCharge distanceKm
    durationMin : ℚ) : Bool :=
  let energy := distanceKm * truck.consumption
  decide (energy ≤ 0.8 * truck.battery_capacity) &&
    decide (energy ≤ currentCharge) &&
    decide (durationMin ≤ 4.5 * 60)

/-- optily.py lines 457-459: the daily-driving-limit trigger.  The code sets
`daily_driving_minutes = MAX_DAILY_DRIVING_HOURS * 60 - driver.mins_driven`
(the remaining minutes, despite the comment calling it minutes since start of
day) and then tests `daily_driving_minutes + predicted > MAX_DAILY * 60`. -/
def daily_rest_check (mins_driven predicted_duration_minutes : ℚ) : Bool :=
  let daily_driving_minutes := MAX_DAILY_DRIVING_HOURS * 60 - mins_driven
  decide (daily_driving_minutes + predicted_duration_minutes >
    MAX_DAILY_DRIVING_HOURS * 60)

/-- The spec's daily-rest trigger (§4.3), stated from the spec's words for
comparison with the code: insert a LongRest iff `dailyMin + d` would exceed
the daily threshold of 9 hours (540 minutes). -/
def daily_rest_spec (dailyMin d : ℚ) : Bool :=
  decide (dailyMin + d > 9 * 60)

/- ----------------------------------------------------------------- -/
/- optily.py record types (models.py counterparts)                    -/
/- ----------------------------------------------------------------- -/

/-- The segment dictionary built by optily.py `_create_route_segment`. -/
structure Seg where
  coordinates : List Point
  distance_km : ℚ
  duration_minutes : ℚ
  energy_consumption : ℚ
  start_point : Point
  end_point : Point
deriving DecidableEq

/-- The per-segment cost dictionary of `_calculate_segment_costs_dict`. -/
structure SegCosts where
  driver_cost_eur : ℚ
  depreciation_cost_eur : ℚ
  tolls_cost_eur : ℚ
  total_cost_eur : ℚ
deriving DecidableEq

/-- models.py `DetailedRouteSegment`. -/
structure DetailedRouteSegment where
  segment_number : Nat
  start_point : Point
  end_point : Point
  distance_km : ℚ
  duration_minutes : ℚ
  energy_consumption_kwh : ℚ
  coordinates : List Point
  costs : SegCosts
  driver_id : Option String
deriving DecidableEq

/-- The charging-stop dictionary built by `_create_charging_stop`. -/
structure ChargingStopRec where
  station : ChargingStation
  segment : Nat
  arrival_battery : ℚ
  energy_to_charge : ℚ
  charging_time_hours : ℚ
  charging_cost : ℚ
deriving DecidableEq

/-- models.py `DetailedChargingStop`. -/
structure DetailedChargingStop where
  stop_number : Nat
  charging_station : ChargingStation
  arrival_battery_kwh : ℚ
  energy_to_charge_kwh : ℚ
  charging_time_hours : ℚ
  charging_cost_eur : ℚ
  departure_battery_kwh : ℚ
deriving DecidableEq

/-- models.py `DetailedDriverBreak` (times in minutes). -/
structure DetailedDriverBreak where
  break_number : Nat
  break_type : DriverBreakType
  location : Point
  start_time_minutes : ℚ
  duration_minutes : ℚ
  reason : String
  charging_station : Option ChargingStation
deriving DecidableEq

/-- models.py `Driver` (the optily.py usage). -/
structure Driver where
  id : String
  name : String
  current_location : Point
  home_location : Point
  mins_driven : ℚ
  continuous_driving_minutes : ℚ
  breaks_taken_min : ℚ
deriving DecidableEq

/-- The running `total_costs` dictionary of `_plan_eu_compliant_route`
(HEAD: keys driver, depreciation, tolls, charging — no energy line item). -/
structure TotalCosts where
  driver_cost : ℚ
  depreciation_cost : ℚ
  tolls_cost : ℚ
  charging_cost : ℚ
deriving DecidableEq

/-- models.py `RouteCosts` (HEAD: no `energy_cost_eur` field). -/
structure RouteCosts where
  driver_cost_eur : ℚ
  depreciation_cost_eur : ℚ
  tolls_cost_eur : ℚ
  charging_cost_eur : ℚ
  total_cost_eur : ℚ
deriving DecidableEq

/-- models.py `SingleRouteRequest`. -/
structure SingleRouteRequest where
  start_lat : ℚ
  start_lng : ℚ
  end_lat : ℚ
  end_lng : ℚ
  route_name : Option String
deriving DecidableEq

/-- models.py `SingleRouteWithSegments` (the planner's result type).
Success-message bodies built with float formatting are elided to their
constant first line; error messages keep their discriminating text. -/
structure SingleRouteWithSegments where
  distance_km : ℚ
  route_name : String
  duration_minutes : ℚ
  success : Bool
  message : String
  route_segments : List DetailedRouteSegment
  charging_stops : List DetailedChargingStop
  driver_breaks : List DetailedDriverBreak
  driver : Option Driver
  total_costs : Option RouteCosts
  truck_model : Option String
  starting_battery_kwh : Option ℚ
  final_battery_kwh : Option ℚ
  eu_compliant : Bool
deriving DecidableEq

/- ----------------------------------------------------------------- -/
/- optily.py helper functions                                         -/
/- ----------------------------------------------------------------- -/

/-- optily.py `_get_route_distance`: provider distance in km, 0 on failure. -/
def get_route_distance (env : Env) (a b : Point) : ℚ :=
  match env.get_route a b with
  | some rd => rd.distance / 1000
  | none => 0

/-- optily.py `_get_route_duration`: provider duration in MINUTES
(`route_data["duration"] / 60` with the duration in seconds), 0 on failure. -/
def get_route_duration (env : Env) (a b : Point) : ℚ :=
  match env.get_route a b with
  | some rd => rd.duration / 60
  | none => 0

/-- optily.py `_create_route_segment`. -/
def create_route_segment (env : Env) (a b : Point) (truck : TruckModel) :
    Option Seg :=
  (env.get_route a b).map fun rd =>
    let distance_km := rd.distance / 1000
    { coordinates := rd.coordinates
      distance_km := distance_km
      duration_minutes := rd.duration / 60
      energy_consumption := calculate_energy_consumption distance_km truck
      start_point := a
      end_point := b }

/-- optily.py `_calculate_max_range_until_20_percent` (HEAD, lines 677-735):
battery-limited range capped by the time-limited range
`(4.0 - 10/60) hours * 70 km/h`. -/
def calculate_max_range_until_20_percent (truck : TruckModel)
    (current_battery : ℚ) : ℚ :=
  let min_battery_kwh := truck.battery_capacity * 0.20
  let usable_battery := current_battery - min_battery_kwh
  if usable_battery ≤ 0 then 0
  else
    let battery_limited_range := usable_battery / truck.consumption
    let time_limited_range := (4.0 - 10 / 60) * 70.0
    min battery_limited_range time_limited_range

/-- optily.py `_euclidean_distance`: the square root is the environment's
abstract `sqrt` (the value only feeds candidate ranking). -/
def euclidean_distance (env : Env) (point1 point2 : Point) : ℚ :=
  let lat_diff := (point2.1 - point1.1) * 111
  let lon_diff := (point2.2 - point1.2) * 111 * 0.7
  env.sqrt (lat_diff ^ 2 + lon_diff ^ 2)

/-- optily.py `_find_closest_stations_to_point`: Python's stable ascending
sort by the approximate distance (modelled by Mathlib's stable
`insertionSort`, extensionally the same function), then take the first
`num_candidates`. -/
def find_closest_stations_to_point (env : Env) (target_point : Point)
    (charging_stations : List ChargingStation) (num_candidates : Nat) :
    List ChargingStation :=
  let station_distances := charging_stations.map fun s =>
    (s, euclidean_distance env target_point (s.latitude, s.longitude))
  let sorted := station_distances.insertionSort fun x y => x.2 ≤ y.2
  (sorted.take num_candidates).map Prod.fst

/-- The station score of `_select_best_station_by_score` (HEAD weights:
cost 1.0, power 0.0); `none` stands for the `float('inf')` score of a
station without positive power. -/
def station_score (s : ChargingStation) : Option ℚ :=
  if s.max_power_kW > 0 then some (1.0 * s.price_per_kWh + 0.0 / s.max_power_kW)
  else none

/-- Strict comparison of scores with `none` as `+∞`. -/
def score_lt : Option ℚ → Option ℚ → Bool
  | some a, some b => decide (a < b)
  | some _, none => true
  | none, _ => false

/-- optily.py `_select_best_station_by_score`: keep the first strictly best
scored station, `None` when no candidate beats `+∞`. -/
def select_best_station_by_score (candidate_stations : List ChargingStation) :
    Option ChargingStation :=
  (candidate_stations.foldl
    (fun (best : Option ChargingStation × Option ℚ) s =>
      let total_score := station_score s
      if score_lt total_score best.2 then (some s, total_score) else best)
    (none, none)).1

/-- optily.py `_create_charging_stop`. -/
def create_charging_stop (station : ChargingStation) (segment_count : Nat)
    (current_battery energy_used : ℚ) (truck : TruckModel) : ChargingStopRec :=
  let arrival_battery := current_battery - energy_used
  let energy_to_charge := truck.battery_capacity * 0.8 - arrival_battery
  { station := station
    segment := segment_count
    arrival_battery := arrival_battery
    energy_to_charge := energy_to_charge
    charging_time_hours :=
      if station.max_power_kW > 0 then energy_to_charge / station.max_power_kW
      else 1.0
    charging_cost := energy_to_charge * station.price_per_kWh }

/-- optily.py `_add_segment_costs` (HEAD: wage 35 €/h, depreciation
0.05 €/km, tolls 0 €/km; no energy line). -/
def add_segment_costs (segment : Seg) (total_costs : TotalCosts) : TotalCosts :=
  let duration_hours := segment.duration_minutes / 60
  let distance_km := segment.distance_km
  { total_costs with
    driver_cost := total_costs.driver_cost + 35.0 * duration_hours
    depreciation_cost := total_costs.depreciation_cost + 0.05 * distance_km
    tolls_cost := total_costs.tolls_cost + 0.00 * distance_km }

/-- optily.py `_add_charging_costs` (HEAD: only the charging cost is added;
the driver-waiting line is commented out). -/
def add_charging_costs (charging_stop : ChargingStopRec)
    (total_costs : TotalCosts) : TotalCosts :=
  { total_costs with
    charging_cost := total_costs.charging_cost + charging_stop.charging_cost }

/-- optily.py `_calculate_segment_costs_dict` (HEAD: no energy cost). -/
def calculate_segment_costs_dict (segment : Seg) : SegCosts :=
  let duration_hours := segment.duration_minutes / 60
  let distance_km := segment.distance_km
  let driver_cost := 35.0 * duration_hours
  let depreciation_cost := 0.05 * distance_km
  let tolls_cost := 0.00 * distance_km
  { driver_cost_eur := driver_cost
    depreciation_cost_eur := depreciation_cost
    tolls_cost_eur := tolls_cost
    total_cost_eur := driver_cost + depreciation_cost + tolls_cost }

/-- optily.py `_calculate_total_station_time`:
`max(charging_time, 0.75)` hours. -/
def calculate_total_station_time (charging_stop : ChargingStopRec) : ℚ :=
  max charging_stop.charging_time_hours 0.75

/-- optily.py `_find_break_location`: the closest station when one exists,
otherwise the roadside at the current position. -/
def find_break_location (env : Env) (current_position : Point)
    (charging_stations : List ChargingStation) :
    Point × Option ChargingStation :=
  match find_closest_stations_to_point env current_position charging_stations 3 with
  | [] => (current_position, none)
  | best_station :: _ =>
    ((best_station.latitude, best_station.longitude), some best_station)

/- ----------------------------------------------------------------- -/
/- optily.py `_plan_eu_compliant_route`                               -/
/- ----------------------------------------------------------------- -/

/-- The mutable local state of `_plan_eu_compliant_route`. -/
structure PlanState where
  route_segments : List Seg
  charging_stops : List ChargingStopRec
  detailed_segments : List DetailedRouteSegment
  detailed_charging_stops : List DetailedChargingStop
  driver_breaks : List DetailedDriverBreak
  total_costs : TotalCosts
  driver : Driver
  current_battery : ℚ
  current_position : Point
  total_journey_time_minutes : ℚ
  segment_count : Nat
  break_count : Nat
deriving DecidableEq

/-- Builds a `DetailedRouteSegment` from a segment dictionary, as the
`DetailedRouteSegment(...)` constructions in `_plan_eu_compliant_route`. -/
def mk_detailed_segment (segment_number : Nat) (start_point end_point : Point)
    (segment : Seg) (driver_id : String) : DetailedRouteSegment :=
  { segment_number := segment_number
    start_point := start_point
    end_point := end_point
    distance_km := segment.distance_km
    duration_minutes := segment.duration_minutes
    energy_consumption_kwh := segment.energy_consumption
    coordinates := segment.coordinates
    costs := calculate_segment_costs_dict segment
    driver_id := some driver_id }

/-- Builds a `DetailedChargingStop`, as the `DetailedChargingStop(...)`
constructions in `_plan_eu_compliant_route` (departure charge 80%). -/
def mk_detailed_charging_stop (stop_number : Nat) (station : ChargingStation)
    (charging_stop : ChargingStopRec) (truck : TruckModel) :
    DetailedChargingStop :=
  { stop_number := stop_number
    charging_station := station
    arrival_battery_kwh := charging_stop.arrival_battery
    energy_to_charge_kwh := charging_stop.energy_to_charge
    charging_time_hours := charging_stop.charging_time_hours
    charging_cost_eur := charging_stop.charging_cost
    departure_battery_kwh := truck.battery_capacity * 0.8 }

/-- The `RouteCosts(...)` construction: components plus
`total_cost_eur = sum(total_costs.values())`. -/
def mk_route_costs (tc : TotalCosts) : RouteCosts :=
  { driver_cost_eur := tc.driver_cost
    depreciation_cost_eur := tc.depreciation_cost
    tolls_cost_eur := tc.tolls_cost
    charging_cost_eur := tc.charging_cost
    total_cost_eur :=
      tc.driver_cost + tc.depreciation_cost + tc.tolls_cost + tc.charging_cost }

/-- optily.py `_create_error_response`. -/
def create_error_response (request : SingleRouteRequest) (message : String) :
    SingleRouteWithSegments :=
  { distance_km := 0
    route_name := request.route_name.getD "Custom Route"
    duration_minutes := 0
    success := false
    message := message
    route_segments := []
    charging_stops := []
    driver_breaks := []
    driver := none
    total_costs := none
    truck_model := none
    starting_battery_kwh := none
    final_battery_kwh := none
    eu_compliant := false }

/-- The post-loop success path of `_plan_eu_compliant_route`
(lines 596-651): totals over the raw segments, costs from the running
dictionary, `final_battery = current_battery`, `success=True`. -/
def finalize_staged (request : SingleRouteRequest) (truck : TruckModel)
    (truck_model : String) (starting_battery_kwh : ℚ) (st : PlanState) :
    SingleRouteWithSegments :=
  let total_distance := (st.route_segments.map (·.distance_km)).sum
  let total_duration := (st.route_segments.map (·.duration_minutes)).sum
  { distance_km := total_distance
    route_name :=
      request.route_name.getD (truck.manufacturer ++ " " ++ truck.model ++ " Route")
    duration_minutes := total_duration
    success := true
    message := "EU-Compliant Route planned successfully!"
    route_segments := st.detailed_segments
    charging_stops := st.detailed_charging_stops
    driver_breaks := st.driver_breaks
    driver := some st.driver
    total_costs := some (mk_route_costs st.total_costs)
    truck_model := some truck_model
    starting_battery_kwh := some starting_battery_kwh
    final_battery_kwh := some st.current_battery
    eu_compliant := true }

/-- Step 7 of the staged loop (lines 425-455): if the continuous-driving
minutes plus the predicted segment duration would exceed 4.5 h, record a
45-minute ShortBreak at the best break location, reset the continuous
counter and advance the journey clock.  (`_find_break_location` always
returns a location, so the `if not break_location` error path of line 432 is
unreachable.) -/
def apply_short_break_check (env : Env)
    (charging_stations : List ChargingStation)
    (predicted_duration_minutes : ℚ) (st : PlanState) : PlanState :=
  if st.driver.continuous_driving_minutes + predicted_duration_minutes >
      MAX_CONTINUOUS_DRIVING_HOURS * 60 then
    let break_count := st.break_count + 1
    let bl := find_break_location env st.current_position charging_stations
    let mandatory_break : DetailedDriverBreak :=
      { break_number := break_count
        break_type := DriverBreakType.short_break
        location := bl.1
        start_time_minutes := st.total_journey_time_minutes
        duration_minutes := SHORT_BREAK_DURATION_HOURS * 60
        reason := "Mandatory 45-minute break"
        charging_station := bl.2 }
    { st with
      driver_breaks := st.driver_breaks ++ [mandatory_break]
      driver := { st.driver with
        breaks_taken_min :=
          st.driver.breaks_taken_min + mandatory_break.duration_minutes
        continuous_driving_minutes := 0 }
      total_journey_time_minutes :=
        st.total_journey_time_minutes + mandatory_break.duration_minutes
      break_count := break_count }
  else st

/-- Step 8 of the staged loop (lines 457-484): the daily-limit check with the
remaining-minutes slip (`daily_rest_check`); on firing it records an 11-hour
LongRest at the current position and resets both accumulators. -/
def apply_daily_rest_check (predicted_duration_minutes : ℚ)
    (st : PlanState) : PlanState :=
  if daily_rest_check st.driver.mins_driven predicted_duration_minutes then
    let break_count := st.break_count + 1
    let mandatory_rest : DetailedDriverBreak :=
      { break_number := break_count
        break_type := DriverBreakType.long_rest
        location := st.current_position
        start_time_minutes := st.total_journey_time_minutes
        duration_minutes := LONG_REST_DURATION_HOURS * 60
        reason := "Mandatory 11-hour rest (multi-day planning)"
        charging_station := none }
    { st with
      driver_breaks := st.driver_breaks ++ [mandatory_rest]
      driver := { st.driver with
        breaks_taken_min :=
          st.driver.breaks_taken_min + mandatory_rest.duration_minutes
        continuous_driving_minutes := 0
        mins_driven := 0 }
      total_journey_time_minutes :=
        st.total_journey_time_minutes + mandatory_rest.duration_minutes
      break_count := break_count }
  else st

/-- One iteration of the `while True` staged loop of
`_plan_eu_compliant_route` (HEAD, lines 264-592), after the
`segment_count > 10` guard: `.inl` is a return/break out of the loop,
`.inr` continues with the updated state.  A `None` from
`_create_route_segment` inside the reach-destination branch makes the Python
code subscript `None` (the driver-state updates sit outside the
`if segment:` guard), raising an exception that `plan_route` turns into an
"Unexpected error" response; that is the `.inl` error in those positions. -/
def staged_step (env : Env) (request : SingleRouteRequest) (truck : TruckModel)
    (charging_stations : List ChargingStation) (truck_model : String)
    (starting_battery_kwh : ℚ) (destination : Point) (st : PlanState) :
    SingleRouteWithSegments ⊕ PlanState :=
  let segment_count := st.segment_count + 1
  -- Step 1-2: max range and the point at that distance along the route
  let max_range_km := calculate_max_range_until_20_percent truck st.current_battery
  let max_range_point :=
    env.find_point_at_distance st.current_position destination max_range_km
  -- Step 3-4: candidate stations and best station
  let candidate_stations :=
    find_closest_stations_to_point env max_range_point charging_stations 5
  match select_best_station_by_score candidate_stations with
  | none =>
    Sum.inl (create_error_response request
      ("No suitable charging station found for segment " ++ toString segment_count))
  | some best_station =>
    let station_position : Point := (best_station.latitude, best_station.longitude)
    -- Step 5: can the destination be reached directly from this station?
    let direct_distance := get_route_distance env station_position destination
    let direct_duration := get_route_duration env station_position destination
    let energy_needed := calculate_energy_consumption direct_distance truck
    let charged_battery := truck.battery_capacity * 0.8
    if direct_distance > 0 ∧ charged_battery ≥ energy_needed ∧
        direct_duration ≤ MAX_ALLOWED_DIRECT_DRIVING_HOURS * 60 then
      match create_route_segment env st.current_position station_position truck with
      | none =>
        Sum.inl (create_error_response request
          "Unexpected error: segment to station could not be created")
      | some segment_to_station =>
        let route_segments := st.route_segments ++ [segment_to_station]
        let total_costs := add_segment_costs segment_to_station st.total_costs
        let driver := { st.driver with
          mins_driven := st.driver.mins_driven + segment_to_station.duration_minutes
          continuous_driving_minutes :=
            st.driver.continuous_driving_minutes + segment_to_station.duration_minutes }
        let total_journey_time_minutes :=
          st.total_journey_time_minutes + segment_to_station.duration_minutes
        let charging_stop := create_charging_stop best_station segment_count
          st.current_battery segment_to_station.energy_consumption truck
        let charging_stops := st.charging_stops ++ [charging_stop]
        let total_costs := add_charging_costs charging_stop total_costs
        let detailed_charging_stops := st.detailed_charging_stops ++
          [mk_detailed_charging_stop segment_count best_station charging_stop truck]
        let total_station_time_minutes := calculate_total_station_time charging_stop * 60
        let driver := { driver with
          breaks_taken_min := driver.breaks_taken_min + total_station_time_minutes }
        let total_journey_time_minutes :=
          total_journey_time_minutes + total_station_time_minutes
        let detailed_segments := st.detailed_segments ++
          [mk_detailed_segment segment_count st.current_position station_position
            segment_to_station driver.id]
        let charging_break : DetailedDriverBreak :=
          { break_number := st.break_count
            break_type := DriverBreakType.short_break
            location := station_position
            start_time_minutes := total_journey_time_minutes
            duration_minutes := charging_stop.charging_time_hours * 60
            reason := "Charging break at " ++ best_station.operator_name
            charging_station := some best_station }
        let driver_breaks := st.driver_breaks ++ [charging_break]
        match create_route_segment env station_position destination truck with
        | none =>
          Sum.inl (create_error_response request
            "Unexpected error: final segment could not be created")
        | some final_segment =>
          let route_segments := route_segments ++ [final_segment]
          let total_costs := add_segment_costs final_segment total_costs
          let driver := { driver with
            mins_driven := driver.mins_driven + final_segment.duration_minutes
            continuous_driving_minutes :=
              driver.continuous_driving_minutes + final_segment.duration_minutes
            current_location := destination }
          let total_journey_time_minutes :=
            total_journey_time_minutes + final_segment.duration_minutes
          let detailed_segments := detailed_segments ++
            [mk_detailed_segment (segment_count + 1) station_position destination
              final_segment driver.id]
          -- `break`: exit the while loop into the post-loop success path
          Sum.inl (finalize_staged request truck truck_model starting_battery_kwh
            { st with
              route_segments := route_segments
              charging_stops := charging_stops
              detailed_segments := detailed_segments
              detailed_charging_stops := detailed_charging_stops
              driver_breaks := driver_breaks
              total_costs := total_costs
              driver := driver
              total_journey_time_minutes := total_journey_time_minutes
              segment_count := segment_count })
    else
      -- Step 6: predicted duration of the upcoming segment (70 km/h average)
      let predicted_distance := get_route_distance env st.current_position station_position
      let predicted_duration_minutes := predicted_distance / 70.0 * 60
      -- Steps 7-8: compliance checks before the segment
      let st1 := apply_short_break_check env charging_stations
        predicted_duration_minutes st
      let st2 := apply_daily_rest_check predicted_duration_minutes st1
      -- Step 9: create the segment to the station
      match create_route_segment env st2.current_position station_position truck with
      | none =>
        Sum.inl (create_error_response request
          ("Failed to create route segment " ++ toString segment_count))
      | some segment =>
        let route_segments := st2.route_segments ++ [segment]
        let total_costs := add_segment_costs segment st2.total_costs
        let driver := { st2.driver with
          mins_driven := st2.driver.mins_driven + segment.duration_minutes
          continuous_driving_minutes :=
            st2.driver.continuous_driving_minutes + segment.duration_minutes }
        let total_journey_time_minutes :=
          st2.total_journey_time_minutes + segment.duration_minutes
        let detailed_segments := st2.detailed_segments ++
          [mk_detailed_segment segment_count st2.current_position station_position
            segment driver.id]
        let charging_stop := create_charging_stop best_station segment_count
          st2.current_battery segment.energy_consumption truck
        let charging_stops := st2.charging_stops ++ [charging_stop]
        let total_costs := add_charging_costs charging_stop total_costs
        let detailed_charging_stops := st2.detailed_charging_stops ++
          [mk_detailed_charging_stop segment_count best_station charging_stop truck]
        let total_station_time_minutes := calculate_total_station_time charging_stop * 60
        let driver := { driver with
          breaks_taken_min := driver.breaks_taken_min + total_station_time_minutes
          current_location := station_position }
        let total_journey_time_minutes :=
          total_journey_time_minutes + total_station_time_minutes
        -- Step 10: move to the station, charge to 100%
        Sum.inr { st2 with
          route_segments := route_segments
          charging_stops := charging_stops
          detailed_segments := detailed_segments
          detailed_charging_stops := detailed_charging_stops
          total_costs := total_costs
          driver := driver
          current_battery := truck.battery_capacity * 1.0
          current_position := station_position
          total_journey_time_minutes := total_journey_time_minutes
          segment_count := segment_count }

/-- The `while True` loop with its `segment_count > 10` escape hatch
(lines 248-250).  `fuel` is a structural bound: starting from
`segment_count = 0` with fuel 12 the guard always fires before the fuel runs
out, and the fuel-exhaustion clause coincides with the loop's own exit path. -/
def staged_loop (env : Env) (request : SingleRouteRequest) (truck : TruckModel)
    (charging_stations : List ChargingStation) (truck_model : String)
    (starting_battery_kwh : ℚ) (destination : Point) :
    Nat → PlanState → SingleRouteWithSegments
  | 0, st => finalize_staged request truck truck_model starting_battery_kwh st
  | fuel + 1, st =>
    if st.segment_count > 10 then
      finalize_staged request truck truck_model starting_battery_kwh st
    else
      match staged_step env request truck charging_stations truck_model
        starting_battery_kwh destination st with
      | Sum.inl result => result
      | Sum.inr st' =>
        staged_loop env request truck charging_stations truck_model
          starting_battery_kwh destination fuel st'

/-- optily.py `_plan_eu_compliant_route` (HEAD).  `driver_uuid` is the value
drawn from `uuid.uuid4()` for the driver identity (an entropy input of the
run); the driver's display name takes its first 8 characters as in
`f"Driver {str(uuid.uuid4())[:8]}"` (the source draws a second UUID for the
name; the same entropy string is used here for both, which is immaterial to
the claims since both are UUID draws). -/
def plan_eu_compliant_route (env : Env) (request : SingleRouteRequest)
    (truck : TruckModel) (charging_stations : List ChargingStation)
    (starting_battery_kwh : ℚ) (truck_model : String) (driver_uuid : String) :
    SingleRouteWithSegments :=
  let driver : Driver :=
    { id := driver_uuid
      name := "Driver " ++ driver_uuid.take 8
      current_location := (request.start_lat, request.start_lng)
      home_location := (request.start_lat, request.start_lng)
      mins_driven := 0
      continuous_driving_minutes := 0
      breaks_taken_min := 0 }
  let current_position : Point := (request.start_lat, request.start_lng)
  let destination : Point := (request.end_lat, request.end_lng)
  let init : PlanState :=
    { route_segments := []
      charging_stops := []
      detailed_segments := []
      detailed_charging_stops := []
      driver_breaks := []
      total_costs := ⟨0, 0, 0, 0⟩
      driver := driver
      current_battery := starting_battery_kwh
      current_position := current_position
      total_journey_time_minutes := 0
      segment_count := 0
      break_count := 0 }
  let direct_distance := get_route_distance env current_position destination
  let direct_duration := get_route_duration env current_position destination
  if direct_distance > 0 ∧
      origin_direct_check truck starting_battery_kwh direct_distance
        direct_duration = true then
    match create_route_segment env current_position destination truck with
    | some direct_segment =>
      let total_costs := add_segment_costs direct_segment ⟨0, 0, 0, 0⟩
      let driver := { driver with
        mins_driven := driver.mins_driven + direct_segment.duration_minutes
        continuous_driving_minutes :=
          driver.continuous_driving_minutes + direct_segment.duration_minutes
        current_location := destination }
      { distance_km := direct_segment.distance_km
        route_name := request.route_name.getD
          (truck.manufacturer ++ " " ++ truck.model ++ " Direct Route")
        duration_minutes := direct_segment.duration_minutes
        success := true
        message := "Direct EU-Compliant route planned successfully!"
        route_segments :=
          [mk_detailed_segment 1 current_position destination direct_segment driver.id]
        charging_stops := []
        driver_breaks := []
        driver := some driver
        total_costs := some (mk_route_costs total_costs)
        truck_model := some truck_model
        starting_battery_kwh := some starting_battery_kwh
        final_battery_kwh :=
          some (starting_battery_kwh - direct_segment.energy_consumption)
        eu_compliant := true }
    | none =>
      -- `if direct_segment:` fails: fall through to the staged loop
      staged_loop env request truck charging_stations truck_model
        starting_battery_kwh destination 12 init
  else
    staged_loop env request truck charging_stations truck_model
      starting_battery_kwh destination 12 init

/- ----------------------------------------------------------------- -/
/- optimizer.py : swap detection and application                      -/
/- ----------------------------------------------------------------- -/

/-- optimizer.py `INVERSE_ALIGNMENT_THRESHOLD` = 0.8. -/
def INVERSE_ALIGNMENT_THRESHOLD : ℚ := 0.8

/-- optimizer.py `NEAR_RENDEZVOUS_RADIUS_KM` = 300. -/
def NEAR_RENDEZVOUS_RADIUS_KM : ℚ := 300

/-- The driver record as used by optimizer.py (id, locations, assigned
truck). -/
structure OptDriver where
  id : String
  current_location : Point
  home_location : Point
  current_truck_id : Option Int
deriving DecidableEq

/-- The per-round iteration dictionary built in `optimize_routes`.  For
non-final iterations the nested `charging_station` dictionary is flattened
into the id/location fields; the `"is_final" in iteration` membership test is
the `is_final` flag. -/
structure IterationRec where
  iteration : Nat
  route_idx : Int
  start_position : Point
  end_position : Point
  distance : ℚ
  charging_station_id : Int
  charging_station_location : Point
  is_final : Bool
deriving DecidableEq

/-- A potential-swap dictionary of `find_potential_truck_swaps`. -/
structure SwapCandidate where
  station_id : Int
  station_location : Point
  driver1_id : String
  driver2_id : String
  benefit_km : ℚ
  alignment_dot : ℚ
  reason : String
  detour_km_total : ℚ
  iteration1 : IterationRec
  iteration2 : IterationRec
deriving DecidableEq

/-- optimizer.py `_normalize` (inside `find_potential_truck_swaps`); the
square root is an abstract parameter (see the module docstring). -/
def normalize_vec (sqrtFn : ℚ → ℚ) (v : ℚ × ℚ) : ℚ × ℚ :=
  let length := sqrtFn (v.1 ^ 2 + v.2 ^ 2)
  if length = 0 then (0, 0) else (v.1 / length, v.2 / length)

/-- All ordered pairs `(l[i], l[j])` with `i < j`, in the order of the nested
`for i / for j in range(i+1, ...)` loops. -/
def ordered_pairs : List α → List (α × α)
  | [] => []
  | x :: xs => xs.map (fun y => (x, y)) ++ ordered_pairs xs

/-- The rendezvous search of `find_potential_truck_swaps` (lines 558-571):
the truck-suitable station within the radius of both positions minimizing
`d1 + d2`, keeping the first of equals.  `dist` abstracts
`charging_stations.calculate_distance` (haversine). -/
def best_rendezvous_station (dist : Point → Point → ℚ)
    (charging_stations : List ChargingStation) (pos1 pos2 : Point) :
    Option (Int × Point × ℚ) :=
  charging_stations.foldl
    (fun best st =>
      if st.truck_suitability = "yes" then
        let st_pos : Point := (st.latitude, st.longitude)
        let d1 := dist pos1 st_pos
        let d2 := dist pos2 st_pos
        if d1 ≤ NEAR_RENDEZVOUS_RADIUS_KM ∧ d2 ≤ NEAR_RENDEZVOUS_RADIUS_KM then
          match best with
          | none => some (st.id, st_pos, d1 + d2)
          | some prev =>
            if d1 + d2 < prev.2.2 then some (st.id, st_pos, d1 + d2) else best
        else best
      else best)
    none

/-- The evaluation of one driver pair in `find_potential_truck_swaps`
(lines 522-585): skip identical drivers, missing destination coordinates and
insufficiently opposed directions; same-station pairs give a free swap,
otherwise search for a rendezvous station. -/
def eval_swap_pair (sqrtFn : ℚ → ℚ) (dist : Point → Point → ℚ)
    (charging_stations : List ChargingStation)
    (route_end_coords : Int → Option Point)
    (p : (OptDriver × IterationRec) × (OptDriver × IterationRec)) :
    Option SwapCandidate :=
  let driver1 := p.1.1
  let iteration1 := p.1.2
  let driver2 := p.2.1
  let iteration2 := p.2.2
  if driver1.id = driver2.id then none
  else
    let pos1 := iteration1.end_position
    let pos2 := iteration2.end_position
    match route_end_coords iteration1.route_idx,
        route_end_coords iteration2.route_idx with
    | some route1_end, some route2_end =>
      let nv1 := normalize_vec sqrtFn (route1_end.1 - pos1.1, route1_end.2 - pos1.2)
      let nv2 := normalize_vec sqrtFn (route2_end.1 - pos2.1, route2_end.2 - pos2.2)
      let dot := nv1.1 * nv2.1 + nv1.2 * nv2.2
      if dot > INVERSE_ALIGNMENT_THRESHOLD then none
      else if iteration1.charging_station_id = iteration2.charging_station_id then
        some
          { station_id := iteration1.charging_station_id
            station_location := iteration1.charging_station_location
            driver1_id := driver1.id
            driver2_id := driver2.id
            benefit_km := 0
            alignment_dot := dot
            reason := "same_station"
            detour_km_total := 0
            iteration1 := iteration1
            iteration2 := iteration2 }
      else
        match best_rendezvous_station dist charging_stations pos1 pos2 with
        | some best =>
          some
            { station_id := best.1
              station_location := best.2.1
              driver1_id := driver1.id
              driver2_id := driver2.id
              benefit_km := 0
              alignment_dot := dot
              reason := "rendezvous_within_radius"
              detour_km_total := best.2.2
              iteration1 := iteration1
              iteration2 := iteration2 }
        | none => none
    | _, _ => none

/-- The candidate ranking key of line 588: ascending lexicographic order on
`(alignment_dot, detour_km_total)` — most opposed alignment first, then
smallest detour. -/
def swap_rank_le (a b : SwapCandidate) : Prop :=
  a.alignment_dot < b.alignment_dot ∨
    (a.alignment_dot = b.alignment_dot ∧ a.detour_km_total ≤ b.detour_km_total)

instance : DecidableRel swap_rank_le := fun a b => by
  unfold swap_rank_le; infer_instance

/-- optimizer.py `find_potential_truck_swaps` (lines 481-589). -/
def find_potential_truck_swaps (sqrtFn : ℚ → ℚ) (dist : Point → Point → ℚ)
    (current_iterations : List IterationRec) (drivers : List OptDriver)
    (charging_stations : List ChargingStation)
    (route_end_coords : Int → Option Point) : List SwapCandidate :=
  let iteration_driver_pairs : List (OptDriver × IterationRec) :=
    current_iterations.filterMap fun iteration =>
      if iteration.is_final then none
      else
        (drivers.find? fun d => d.current_truck_id = some iteration.route_idx).map
          fun d => (d, iteration)
  let potential_swaps := (ordered_pairs iteration_driver_pairs).filterMap
    (eval_swap_pair sqrtFn dist charging_stations route_end_coords)
  -- Python's stable sort by key (alignment_dot, detour_km_total), modelled
  -- by the stable insertionSort with the lexicographic order
  potential_swaps.insertionSort swap_rank_le

/-- An entry of `results["truck_swaps"]` (optimize_routes lines 252-275). -/
structure SwapRecord where
  station_id : Int
  driver1_id : String
  driver2_id : String
  benefit_km : ℚ
  alignment_dot : ℚ
  reason : String
  station_location : Point
  detour_km_total : ℚ
  iteration : Nat
  global_iteration : Nat
deriving DecidableEq

/-- One of the two `results["truck_swaps"].append(...)` records. -/
def mk_swap_record (swap : SwapCandidate) (it : IterationRec)
    (global_iteration : Nat) : SwapRecord :=
  { station_id := swap.station_id
    driver1_id := swap.driver1_id
    driver2_id := swap.driver2_id
    benefit_km := swap.benefit_km
    alignment_dot := swap.alignment_dot
    reason := swap.reason
    station_location := swap.station_location
    detour_km_total := swap.detour_km_total
    iteration := it.iteration
    global_iteration := global_iteration }

/-- The swap-application block of `optimize_routes` (lines 234-275): take the
best (first) potential swap, exchange the two drivers' truck assignments, and
append two `truck_swaps` records.  The block never touches the per-route
cursor states, so they are passed through as an opaque value `route_states`.
`none` models the `StopIteration` raised when a referenced driver is missing
from the list (cannot happen for candidates produced from `drivers`). -/
def apply_best_swap {ρ : Type} (drivers : List OptDriver) (route_states : ρ)
    (potential_swaps : List SwapCandidate) (global_iteration : Nat) :
    Option (List OptDriver × ρ × List SwapRecord) :=
  match potential_swaps with
  | [] => some (drivers, route_states, [])
  | swap :: _ =>
    match drivers.findIdx? (fun d => d.id = swap.driver1_id),
        drivers.findIdx? (fun d => d.id = swap.driver2_id) with
    | some i1, some i2 =>
      match drivers.get? i1, drivers.get? i2 with
      | some d1, some d2 =>
        let drivers2 :=
          (drivers.set i1 { d1 with current_truck_id := d2.current_truck_id }).set
            i2 { d2 with current_truck_id := d1.current_truck_id }
        some (drivers2, route_states,
          [mk_swap_record swap swap.iteration1 global_iteration,
            mk_swap_record swap swap.iteration2 global_iteration])
      | _, _ => none
    | _, _ => none

/- ----------------------------------------------------------------- -/
/- Derived notions used by the theorems                               -/
/- ----------------------------------------------------------------- -/

/-- The individually computed cost of one drive segment (§4.4 of the spec and
`_add_segment_costs`): hourly wage x duration, per-km depreciation x
distance, per-km toll x distance. -/
def per_segment_cost (s : DetailedRouteSegment) : ℚ :=
  35.0 * (s.duration_minutes / 60) + 0.05 * s.distance_km + 0.00 * s.distance_km

/-- The individually computed cost of one charging stop (§4.4 of the spec and
`_add_charging_costs`): energy charged x the station's price per kWh. -/
def per_stop_cost (c : DetailedChargingStop) : ℚ :=
  c.energy_to_charge_kwh * c.charging_station.price_per_kWh

/-- Cost-accounting invariant of the planner state: the running `total_costs`
dictionary holds exactly the sum of the individually computed per-segment and
per-stop costs of everything emitted so far. -/
def CostsInv (st : PlanState) : Prop :=
  st.total_costs.driver_cost + st.total_costs.depreciation_cost +
      st.total_costs.tolls_cost + st.total_costs.charging_cost =
    (st.detailed_segments.map per_segment_cost).sum +
      (st.detailed_charging_stops.map per_stop_cost).sum

instance : IsTotal SwapCandidate swap_rank_le :=
  ⟨by
    intro a b
    unfold swap_rank_le
    rcases lt_trichotomy a.alignment_dot b.alignment_dot with h | h | h
    · exact Or.inl (Or.inl h)
    · rcases le_total a.detour_km_total b.detour_km_total with h2 | h2
      · exact Or.inl (Or.inr ⟨h, h2⟩)
      · exact Or.inr (Or.inr ⟨h.symm, h2⟩)
    · exact Or.inr (Or.inl h)⟩

instance : IsTrans SwapCandidate swap_rank_le :=
  ⟨by
    intro a b c hab hbc
    unfold swap_rank_le at hab hbc ⊢
    rcases hab with h1 | ⟨h1, h1d⟩ <;> rcases hbc with h2 | ⟨h2, h2d⟩
    · exact Or.inl (h1.trans h2)
    · exact Or.inl (h2 ▸ h1)
    · exact Or.inl (h1 ▸ h2)
    · exact Or.inr ⟨h1.trans h2, h1d.trans h2d⟩⟩

/- ----------------------------------------------------------------- -/
/- Concrete fixtures for witnesses and counterexamples               -/
/- ----------------------------------------------------------------- -/

/-- A truck with 400 kWh battery and 1 kWh/km consumption. -/
def truck_cons1 : TruckModel := ⟨"T", "One", 400, 1, 500⟩

/-- The spec's example truck: 400 kWh battery, 1.2 kWh/km consumption. -/
def truck_cons12 : TruckModel := ⟨"T", "Twelve", 400, 6 / 5, 500⟩

/-- A charging station at (1, 1) with 100 kW and 0.5 EUR/kWh. -/
def station_mid : ChargingStation := ⟨1, "DE", 1, 1, "yes", "Op", 100, 1 / 2⟩

/-- A demo request from (0, 0) to (9, 9). -/
def req_demo : SingleRouteRequest := ⟨0, 0, 9, 9, none⟩

/-- Provider responses that keep the destination out of reach: 1000 km
(60000 s) to the destination from everywhere, 100 km (6000 s) between any
other pair of points. -/
def env_far : Env :=
  { get_route := fun a b =>
      if b = ((9 : ℚ), (9 : ℚ)) then some ⟨1000000, 60000, [a, b]⟩
      else some ⟨100000, 6000, [a, b]⟩
    find_point_at_distance := fun a _ _ => a
    sqrt := fun q => q }

/-- The planner run on `env_far` with one station: the staged loop never
reaches the destination and trips the hop limit. -/
def res_far : SingleRouteWithSegments :=
  plan_eu_compliant_route env_far req_demo truck_cons1 [station_mid] 400 "One" "u"

/-- Provider responses realising the spec's 200 km example: every route is
200 km with a driving time of 10260 s = 171 minutes. -/
def env_200km : Env :=
  { get_route := fun a b => some ⟨200000, 10260, [a, b]⟩
    find_point_at_distance := fun a _ _ => a
    sqrt := fun q => q }

/-- The planner run on the spec's 200 km example scenario (no stations are
needed if the direct route is taken, as the spec asserts it is). -/
def res_200km : SingleRouteWithSegments :=
  plan_eu_compliant_route env_200km req_demo truck_cons12 [] 400 "Twelve" "u"

/-- Provider responses with a 10 km / 240 s route everywhere: short enough
that even the minutes-vs-hours comparison lets the direct branch run. -/
def env_short : Env :=
  { get_route := fun a b => some ⟨10000, 240, [a, b]⟩
    find_point_at_distance := fun a _ _ => a
    sqrt := fun q => q }

/-- A run of the planner on `env_short` with driver-UUID draw "aaaa". -/
def res_short_a : SingleRouteWithSegments :=
  plan_eu_compliant_route env_short req_demo truck_cons1 [] 400 "One" "aaaa"

/-- The same run with driver-UUID draw "bbbb". -/
def res_short_b : SingleRouteWithSegments :=
  plan_eu_compliant_route env_short req_demo truck_cons1 [] 400 "One" "bbbb"

/-- Swap-detection fixture: driver of truck 0. -/
def driver_a : OptDriver := ⟨"d1", (0, 0), (0, 0), some 0⟩

/-- Swap-detection fixture: driver of truck 1. -/
def driver_b : OptDriver := ⟨"d2", (0, 0), (0, 0), some 1⟩

/-- Swap-detection fixture: both hops end at station 5 at the origin. -/
def iter_a : IterationRec := ⟨1, 0, (0, 0), (0, 0), 100, 5, (0, 0), false⟩

/-- Swap-detection fixture: the second route's hop, same station. -/
def iter_b : IterationRec := ⟨1, 1, (0, 0), (0, 0), 100, 5, (0, 0), false⟩

/-- Destinations chosen so that the two onward unit vectors are `(1, 0)` and
`(4/5, 3/5)`, whose dot product is exactly the inverse-alignment threshold
0.8. -/
def route_ends_demo : Int → Option Point := fun i =>
  if i = 0 then some (1, 0) else if i = 1 then some (4 / 5, 3 / 5) else none

/-- The swap candidates the detector produces on the threshold fixture. -/
def swaps_demo : List SwapCandidate :=
  find_potential_truck_swaps (fun q => q) (fun _ _ => 0) [iter_a, iter_b]
    [driver_a, driver_b] [] route_ends_demo

/-- The single candidate of `swaps_demo`, written out. -/
def swap_cand_demo : SwapCandidate :=
  ⟨5, (0, 0), "d1", "d2", 0, 4 / 5, "same_station", 0, iter_a, iter_b⟩

/- ----------------------------------------------------------------- -/
/- Theorems                                                           -/
/- ----------------------------------------------------------------- -/

section MainTheorems

attribute [local semireducible] Rat.add Rat.mul Rat.inv Rat.sub Rat.ofScientific

/-- C10: for every truck, current level, target level and positive charging
power, `calculate_charging_time` returns 0 exactly when the capacity-capped
target is at most the current level, and otherwise the positive time
`(cappedTarget - current) / power` hours in seconds; the result is never
negative and never charges beyond the battery capacity (the target is capped
first). -/
theorem calculate_charging_time_correct (truck : TruckModel)
    (current_level target_level charging_power : ℚ)
    (hp : 0 < charging_power) :
    (min target_level truck.battery_capacity ≤ current_level →
      calculate_charging_time current_level target_level truck charging_power = 0) ∧
    (current_level < min target_level truck.battery_capacity →
      calculate_charging_time current_level target_level truck charging_power =
        (min target_level truck.battery_capacity - current_level) /
          charging_power * 3600 ∧
      0 < calculate_charging_time current_level target_level truck charging_power) ∧
    0 ≤ calculate_charging_time current_level target_level truck charging_power := by
  unfold calculate_charging_time
  refine ⟨?_, ?_, ?_⟩
  · intro h
    rw [if_pos (by linarith)]
  · intro h
    rw [if_neg (by intro hc; linarith)]
    refine ⟨rfl, ?_⟩
    have hnum : 0 < min target_level truck.battery_capacity - current_level := by
      linarith
    positivity
  · by_cases h : min target_level truck.battery_capacity - current_level ≤ 0
    · rw [if_pos h]
    · rw [if_neg h]
      push_neg at h
      positivity

/-- Witness for C10 at truck capacity 400, current 100, target 900 (capped to
400), power 50: the charging time is (400-100)/50*3600 = 21600 s > 0. -/
theorem calculate_charging_time_correct_witness :
    (min (900 : ℚ) truck_cons1.battery_capacity ≤ 100 →
      calculate_charging_time 100 900 truck_cons1 50 = 0) ∧
    ((100 : ℚ) < min 900 truck_cons1.battery_capacity →
      calculate_charging_time 100 900 truck_cons1 50 =
        (min (900 : ℚ) truck_cons1.battery_capacity - 100) / 50 * 3600 ∧
      0 < calculate_charging_time 100 900 truck_cons1 50) ∧
    0 ≤ calculate_charging_time 100 900 truck_cons1 50 :=
  calculate_charging_time_correct truck_cons1 100 900 50 (by norm_num)

/-- C1: the direct-route check of `_plan_eu_compliant_route` (lines 148-155)
compares the route duration in minutes against the constant 4.5 without
converting hours to minutes, so it rejects a route that the spec's
`DirectReachable` accepts: 200 km / 171 min with a 400 kWh, 1.2 kWh/km truck
at full charge satisfies all three spec conjuncts (energy 240 ≤ 320 = 80% of
capacity, 240 ≤ 400, 171 min within 4.5 h), yet the code's check is false. -/
theorem origin_direct_check_unit_bug :
    DirectReachable_spec truck_cons12 400 200 171 = true ∧
    origin_direct_check truck_cons12 400 200 171 = false := by decide

/-- C4: the daily-driving trigger of lines 457-459 computes
`540 - mins_driven` (remaining minutes) where elapsed minutes were intended,
so it fires iff `d > mins_driven` instead of iff `mins_driven + d > 540`:
with 500 min driven and a 100 min segment the spec demands a LongRest but the
code inserts none, while with 0 min driven and a 10 min segment the code
inserts one the spec forbids. -/
theorem daily_rest_trigger_bug :
    daily_rest_spec 500 100 = true ∧ daily_rest_check 500 100 = false ∧
    daily_rest_spec 0 10 = false ∧ daily_rest_check 0 10 = true := by decide

/-- C3 counterexample: a single continuous drive of 5 hours (18000 s).
`calculate_required_breaks` inserts exactly one 45-minute ShortBreak, but the
break starts at 18000 s — after the 4.5-hour mark (16200 s) has already been
exceeded, not before it as the claim states. -/
theorem short_break_starts_after_threshold :
    calculate_required_breaks 18000 [((0 : ℚ), (0 : ℚ))] [18000] =
      [⟨DriverBreakType.short_break, (0, 0), 18000, 2700⟩] ∧
    ¬ ((18000 : ℚ) ≤ MAX_CONTINUOUS_DRIVING_TIME) := by decide

/-- The continuous-driving accumulator of `calculate_required_breaks` is
below the 4.5 h threshold after every processed segment (a break resets it
whenever the threshold is reached). -/
theorem compliance_step_acc_lt (route_points : List Point)
    (s : ComplianceState) (d : ℚ) :
    (compliance_step route_points s d).accumulated_driving <
      MAX_CONTINUOUS_DRIVING_TIME := by
  have hpos : (0 : ℚ) < MAX_CONTINUOUS_DRIVING_TIME := by
    unfold MAX_CONTINUOUS_DRIVING_TIME; norm_num
  unfold compliance_step
  dsimp only
  split
  next hshort =>
    split <;> exact hpos
  next hshort =>
    split
    · exact hpos
    · exact not_le.mp hshort

/-- The accumulator stays below the threshold along any fold of
`compliance_step`. -/
theorem compliance_foldl_acc_lt (route_points : List Point)
    (ds : List ℚ) (s : ComplianceState)
    (hs : s.accumulated_driving < MAX_CONTINUOUS_DRIVING_TIME) :
    (ds.foldl (compliance_step route_points) s).accumulated_driving <
      MAX_CONTINUOUS_DRIVING_TIME := by
  induction ds generalizing s with
  | nil => exact hs
  | cons d ds ih =>
    exact ih _ (compliance_step_acc_lt route_points s d)

/-- `compliance_step` only appends to the breaks list. -/
theorem compliance_step_breaks_extend (route_points : List Point)
    (s : ComplianceState) (d : ℚ) :
    ∃ t, (compliance_step route_points s d).breaks = s.breaks ++ t := by
  unfold compliance_step
  dsimp only
  split <;> split <;> simp

/-- Folding `compliance_step` only appends to the breaks list. -/
theorem compliance_foldl_breaks_extend (route_points : List Point)
    (ds : List ℚ) (s : ComplianceState) :
    ∃ t, (ds.foldl (compliance_step route_points) s).breaks = s.breaks ++ t := by
  induction ds generalizing s with
  | nil => exact ⟨[], by simp⟩
  | cons d ds ih =>
    obtain ⟨t1, h1⟩ := compliance_step_breaks_extend route_points s d
    obtain ⟨t2, h2⟩ := ih (compliance_step route_points s d)
    exact ⟨t1 ++ t2, by rw [List.foldl_cons, h2, h1, List.append_assoc]⟩

/-- When a segment crosses the threshold, `compliance_step` records a
45-minute ShortBreak starting at the end of that segment. -/
theorem compliance_step_records_break (route_points : List Point)
    (s : ComplianceState) (d : ℚ)
    (h : MAX_CONTINUOUS_DRIVING_TIME ≤ s.accumulated_driving + d) :
    ∃ loc t, (compliance_step route_points s d).breaks =
      s.breaks ++ DriverBreak.mk DriverBreakType.short_break loc
        (s.current_time + d) SHORT_BREAK_DURATION :: t := by
  unfold compliance_step
  dsimp only
  rw [if_pos h]
  split
  · exact ⟨route_points.getD (min (s.idx + 1) (route_points.length - 1)) (0, 0),
      [⟨DriverBreakType.long_rest,
        route_points.getD (min (s.idx + 1) (route_points.length - 1)) (0, 0),
        s.current_time + d + SHORT_BREAK_DURATION, LONG_REST_DURATION⟩], by simp⟩
  · exact ⟨route_points.getD (min (s.idx + 1) (route_points.length - 1)) (0, 0),
      [], by simp⟩

/-- C3 (amended): in `calculate_required_breaks`, the continuous-driving
accumulator is strictly below the 4.5 h threshold at every segment boundary —
whenever the accumulated driving since the last reset reaches 4.5 h at the
end of a segment, a 45-minute ShortBreak is recorded there and the
accumulator is reset — but the recorded break starts at the END of the
crossing segment, which can lie after the 4.5-hour mark (it is not inserted
before the mark is exceeded). -/
theorem compliance_invariant_breaks_at_boundaries (route_points : List Point)
    (route_duration : ℚ) (ds1 : List ℚ) (d : ℚ) (ds2 : List ℚ)
    (hdur : MAX_CONTINUOUS_DRIVING_TIME < route_duration) :
    (ds1.foldl (compliance_step route_points)
        ⟨0, 0, 0, 0, []⟩).accumulated_driving < MAX_CONTINUOUS_DRIVING_TIME ∧
    (MAX_CONTINUOUS_DRIVING_TIME ≤
        (ds1.foldl (compliance_step route_points)
          ⟨0, 0, 0, 0, []⟩).accumulated_driving + d →
      ∃ loc t,
        calculate_required_breaks route_duration route_points (ds1 ++ d :: ds2) =
          (ds1.foldl (compliance_step route_points) ⟨0, 0, 0, 0, []⟩).breaks ++
            DriverBreak.mk DriverBreakType.short_break loc
              ((ds1.foldl (compliance_step route_points)
                  ⟨0, 0, 0, 0, []⟩).current_time + d)
              SHORT_BREAK_DURATION :: t) := by
  constructor
  · refine compliance_foldl_acc_lt route_points ds1 _ ?_
    unfold MAX_CONTINUOUS_DRIVING_TIME
    norm_num
  · intro h
    unfold calculate_required_breaks
    rw [if_neg (by intro hc; exact absurd hdur (not_lt.mpr hc))]
    rw [List.foldl_append, List.foldl_cons]
    obtain ⟨loc, t0, h0⟩ := compliance_step_records_break route_points _ d h
    obtain ⟨t1, h1⟩ := compliance_foldl_breaks_extend route_points ds2
      (compliance_step route_points
        (ds1.foldl (compliance_step route_points) ⟨0, 0, 0, 0, []⟩) d)
    refine ⟨loc, t0 ++ t1, ?_⟩
    rw [h1, h0, List.append_assoc]
    simp

/-- Witness for C3 (amended) at the counterexample input: one 5-hour segment,
empty prefix. -/
theorem compliance_invariant_breaks_at_boundaries_witness :
    (([] : List ℚ).foldl (compliance_step [((0 : ℚ), (0 : ℚ))])
        ⟨0, 0, 0, 0, []⟩).accumulated_driving < MAX_CONTINUOUS_DRIVING_TIME ∧
    (MAX_CONTINUOUS_DRIVING_TIME ≤
        (([] : List ℚ).foldl (compliance_step [((0 : ℚ), (0 : ℚ))])
          ⟨0, 0, 0, 0, []⟩).accumulated_driving + 18000 →
      ∃ loc t,
        calculate_required_breaks 18000 [((0 : ℚ), (0 : ℚ))] ([] ++ 18000 :: []) =
          (([] : List ℚ).foldl (compliance_step [((0 : ℚ), (0 : ℚ))])
              ⟨0, 0, 0, 0, []⟩).breaks ++
            DriverBreak.mk DriverBreakType.short_break loc
              ((([] : List ℚ).foldl (compliance_step [((0 : ℚ), (0 : ℚ))])
                  ⟨0, 0, 0, 0, []⟩).current_time + 18000)
              SHORT_BREAK_DURATION :: t) :=
  compliance_invariant_breaks_at_boundaries [((0 : ℚ), (0 : ℚ))] 18000 [] 18000 []
    (by norm_num [MAX_CONTINUOUS_DRIVING_TIME])

set_option maxRecDepth 400000 in
/-- C2: when the staged loop trips its `segment_count > 10` escape hatch the
planner does NOT report failure and does NOT discard partial results: on a
provider scenario where the destination stays 1000 km away from every
station, the loop runs its 11 permitted iterations and the function then
falls through to the success path, returning `success = true` with the 11
partial segments and 11 charging stops it accumulated — a silently truncated
plan marked successful. -/
theorem hop_limit_returns_truncated_success :
    res_far.success = true ∧
    res_far.route_segments.length = 11 ∧
    res_far.charging_stops.length = 11 ∧
    res_far.message = "EU-Compliant Route planned successfully!" := by decide

set_option maxRecDepth 400000 in
/-- C5: the spec's example scenario — 400 kWh battery, 1.2 kWh/km, a 200 km
origin-to-destination route (duration 171 min) — is directly reachable per
the spec's `DirectReachable` (240 kWh ≤ 320 kWh ≤ 400 kWh, 171 min within
4.5 h), but the planner does not emit the single-segment plan: the
minutes-vs-hours comparison of lines 148-155 sends it into the staged loop,
and the result is not a one-segment, zero-stop plan. -/
theorem direct_example_no_single_segment :
    DirectReachable_spec truck_cons12 400 200 171 = true ∧
    res_200km.success = false ∧
    res_200km.route_segments.length = 0 ∧
    res_200km.charging_stops.length = 0 := by decide

set_option maxRecDepth 400000 in
/-- C9 counterexample: two runs of the planner with identical request, truck,
stations, starting charge and provider responses — differing only in the
`uuid.uuid4()` draw for the driver identity — produce unequal results (the
driver id and name land in the returned plan), so the planner is not a
function of the inputs and provider responses alone. -/
theorem plan_differs_across_uuid_draws : res_short_a ≠ res_short_b := by decide

/-- C9 (amended): given identical inputs, identical provider responses AND
the same driver-UUID draw, two runs of the single-route planner produce equal
results — the planner is deterministic up to the random driver identifier
(and its stdout/debug-file logging, which is outside the plan). -/
theorem plan_deterministic_given_uuid (env1 env2 : Env)
    (request1 request2 : SingleRouteRequest) (truck1 truck2 : TruckModel)
    (stations1 stations2 : List ChargingStation) (battery1 battery2 : ℚ)
    (model1 model2 uuid1 uuid2 : String)
    (henv : env1 = env2) (hreq : request1 = request2) (htruck : truck1 = truck2)
    (hstations : stations1 = stations2) (hbattery : battery1 = battery2)
    (hmodel : model1 = model2) (huuid : uuid1 = uuid2) :
    plan_eu_compliant_route env1 request1 truck1 stations1 battery1 model1 uuid1 =
      plan_eu_compliant_route env2 request2 truck2 stations2 battery2 model2 uuid2 := by
  subst henv hreq htruck hstations hbattery hmodel huuid
  rfl

/-- Witness for C9 (amended) at the `env_short` scenario. -/
theorem plan_deterministic_given_uuid_witness :
    plan_eu_compliant_route env_short req_demo truck_cons1 [] 400 "One" "aaaa" =
      plan_eu_compliant_route env_short req_demo truck_cons1 [] 400 "One" "aaaa" :=
  plan_deterministic_given_uuid env_short env_short req_demo req_demo
    truck_cons1 truck_cons1 [] [] 400 400 "One" "One" "aaaa" "aaaa"
    rfl rfl rfl rfl rfl rfl rfl

/-- C7 counterexample: two drivers whose onward unit vectors are `(1,0)` and
`(4/5, 3/5)` have dot product exactly 0.8 — NOT strictly below the
inverse-alignment threshold — yet the detector considers the pair and emits a
swap candidate carrying that dot product (the code only skips pairs with
`dot > 0.8`). -/
theorem swap_at_threshold_is_considered :
    swaps_demo = [swap_cand_demo] ∧
    ¬ (swap_cand_demo.alignment_dot < INVERSE_ALIGNMENT_THRESHOLD) := by decide

/-- C7 (amended): every swap candidate the detector produces — hence every
swap the coordinator applies and records — has an alignment dot product at
most (not strictly below) the inverse-alignment threshold 0.8; pairs with
dot product strictly above the threshold are never considered. -/
theorem swap_candidates_dot_le_threshold (sqrtFn : ℚ → ℚ)
    (dist : Point → Point → ℚ) (current_iterations : List IterationRec)
    (drivers : List OptDriver) (charging_stations : List ChargingStation)
    (route_end_coords : Int → Option Point) (s : SwapCandidate)
    (hs : s ∈ find_potential_truck_swaps sqrtFn dist current_iterations drivers
      charging_stations route_end_coords) :
    s.alignment_dot ≤ INVERSE_ALIGNMENT_THRESHOLD := by
  unfold find_potential_truck_swaps at hs
  rw [(List.perm_insertionSort _ _).mem_iff] at hs
  obtain ⟨pair, -, hpair⟩ := List.mem_filterMap.mp hs
  unfold eval_swap_pair at hpair
  dsimp only at hpair
  split at hpair
  · exact absurd hpair (by simp)
  · split at hpair
    next route1_end route2_end =>
      split at hpair
      next hdot => exact absurd hpair (by simp)
      next hdot =>
        split at hpair
        · simp only [Option.some.injEq] at hpair
          subst hpair
          exact not_lt.mp hdot
        · split at hpair
          · simp only [Option.some.injEq] at hpair
            subst hpair
            exact not_lt.mp hdot
          · exact absurd hpair (by simp)
    next => exact absurd hpair (by simp)

/-- Witness for C7 (amended): the threshold-boundary candidate of
`swaps_demo`. -/
theorem swap_candidates_dot_le_threshold_witness :
    swap_cand_demo.alignment_dot ≤ INVERSE_ALIGNMENT_THRESHOLD :=
  swap_candidates_dot_le_threshold (fun q => q) (fun _ _ => 0) [iter_a, iter_b]
    [driver_a, driver_b] [] route_ends_demo swap_cand_demo (by decide)

/-- C8: the coordinator's swap application (optimize_routes lines 234-275).
With the detector's output sorted ascending by (alignment dot, detour) — most
opposed first, smallest detour second — the head it applies is ranked at or
before every candidate; applying it uses only that top candidate (the rest
of the list is irrelevant), exchanges exactly the two affected drivers' truck
assignments and changes nothing else about any driver, records the two swap
entries, and passes every route's cursor state through untouched (the code
block never references the route states, modelled by the opaque
`route_states` value). -/
theorem coordinator_applies_single_best_swap {ρ : Type} (sqrtFn : ℚ → ℚ)
    (dist : Point → Point → ℚ) (current_iterations : List IterationRec)
    (drivers : List OptDriver) (charging_stations : List ChargingStation)
    (route_end_coords : Int → Option Point) (route_states : ρ) (g : Nat)
    (swap : SwapCandidate) (rest : List SwapCandidate)
    (hsorted : find_potential_truck_swaps sqrtFn dist current_iterations drivers
      charging_stations route_end_coords = swap :: rest)
    (i1 i2 : Nat) (d1 d2 : OptDriver)
    (h1 : drivers.findIdx? (fun d => d.id = swap.driver1_id) = some i1)
    (h2 : drivers.findIdx? (fun d => d.id = swap.driver2_id) = some i2)
    (hd1 : drivers.get? i1 = some d1) (hd2 : drivers.get? i2 = some d2)
    (hne : i1 ≠ i2) :
    (∀ x ∈ swap :: rest, swap_rank_le swap x) ∧
    apply_best_swap drivers route_states (swap :: rest) g =
      apply_best_swap drivers route_states [swap] g ∧
    ∃ drivers2 recs,
      apply_best_swap drivers route_states (swap :: rest) g =
        some (drivers2, route_states, recs) ∧
      recs = [mk_swap_record swap swap.iteration1 g,
        mk_swap_record swap swap.iteration2 g] ∧
      drivers2.length = drivers.length ∧
      (∀ k, k ≠ i1 → k ≠ i2 → drivers2.get? k = drivers.get? k) ∧
      drivers2.get? i1 = some { d1 with current_truck_id := d2.current_truck_id } ∧
      drivers2.get? i2 = some { d2 with current_truck_id := d1.current_truck_id } := by
  have hlt1 : i1 < drivers.length := List.get?_eq_some.mp hd1 |>.1
  have hlt2 : i2 < drivers.length := List.get?_eq_some.mp hd2 |>.1
  refine ⟨?_, ?_, ?_⟩
  · have hsort : List.Sorted swap_rank_le
        (find_potential_truck_swaps sqrtFn dist current_iterations drivers
          charging_stations route_end_coords) := by
      unfold find_potential_truck_swaps
      exact List.sorted_insertionSort _ _
    rw [hsorted] at hsort
    intro x hx
    rcases List.mem_cons.mp hx with h | h
    · subst h
      rcases IsTotal.total (r := swap_rank_le) x x with ht | ht <;> exact ht
    · exact (List.sorted_cons.mp hsort).1 x h
  · unfold apply_best_swap
    rfl
  · unfold apply_best_swap
    dsimp only
    rw [h1, h2]
    dsimp only
    rw [hd1, hd2]
    refine ⟨_, _, rfl, rfl, by simp [List.length_set], ?_, ?_, ?_⟩
    · intro k hk1 hk2
      rw [List.get?_set_ne _ _ (fun h => hk2 h.symm),
        List.get?_set_ne _ _ (fun h => hk1 h.symm)]
    · rw [List.get?_set_ne _ _ (Ne.symm hne), List.get?_set_eq_of_lt _ hlt1]
    · rw [List.get?_set_eq_of_lt _ (by simpa using hlt2)]

/-- Witness for C8 on the two-driver same-station fixture. -/
theorem coordinator_applies_single_best_swap_witness :
    (∀ x ∈ swap_cand_demo :: ([] : List SwapCandidate),
      swap_rank_le swap_cand_demo x) ∧
    apply_best_swap [driver_a, driver_b] (0 : Nat) (swap_cand_demo :: []) 1 =
      apply_best_swap [driver_a, driver_b] (0 : Nat) [swap_cand_demo] 1 ∧
    ∃ drivers2 recs,
      apply_best_swap [driver_a, driver_b] (0 : Nat) (swap_cand_demo :: []) 1 =
        some (drivers2, 0, recs) ∧
      recs = [mk_swap_record swap_cand_demo swap_cand_demo.iteration1 1,
        mk_swap_record swap_cand_demo swap_cand_demo.iteration2 1] ∧
      drivers2.length = [driver_a, driver_b].length ∧
      (∀ k, k ≠ 0 → k ≠ 1 → drivers2.get? k = [driver_a, driver_b].get? k) ∧
      drivers2.get? 0 =
        some { driver_a with current_truck_id := driver_b.current_truck_id } ∧
      drivers2.get? 1 =
        some { driver_b with current_truck_id := driver_a.current_truck_id } :=
  coordinator_applies_single_best_swap (fun q => q) (fun _ _ => 0)
    [iter_a, iter_b] [driver_a, driver_b] [] route_ends_demo (0 : Nat) 1
    swap_cand_demo [] (by decide) 0 1 driver_a driver_b (by decide) (by decide)
    (by decide) (by decide) (by decide)

/-- Cost soundness of a planner result: whatever `total_costs` it carries
sums exactly the individually computed per-segment and per-stop costs of the
plan it returns. -/
def ResultCostsOK (r : SingleRouteWithSegments) : Prop :=
  ∀ tc, r.total_costs = some tc →
    tc.total_cost_eur = (r.route_segments.map per_segment_cost).sum +
      (r.charging_stops.map per_stop_cost).sum

/-- The post-loop success path reports exactly the accumulated costs. -/
theorem finalize_staged_costs (request : SingleRouteRequest) (truck : TruckModel)
    (truck_model : String) (sb : ℚ) (st : PlanState) (h : CostsInv st) :
    ResultCostsOK (finalize_staged request truck truck_model sb st) := by
  intro tc htc
  unfold finalize_staged at htc ⊢
  dsimp only at htc ⊢
  simp only [Option.some.injEq] at htc
  subst htc
  exact h

/-- Error responses carry no cost object. -/
theorem create_error_response_costs (request : SingleRouteRequest) (m : String) :
    ResultCostsOK (create_error_response request m) := by
  intro tc htc
  simp [create_error_response] at htc

/-- Step 7 does not touch the cost dictionary. -/
theorem short_break_check_total_costs (env : Env)
    (cs : List ChargingStation) (p : ℚ) (st : PlanState) :
    (apply_short_break_check env cs p st).total_costs = st.total_costs := by
  unfold apply_short_break_check
  split <;> rfl

/-- Step 7 does not touch the emitted segments. -/
theorem short_break_check_detailed_segments (env : Env)
    (cs : List ChargingStation) (p : ℚ) (st : PlanState) :
    (apply_short_break_check env cs p st).detailed_segments =
      st.detailed_segments := by
  unfold apply_short_break_check
  split <;> rfl

/-- Step 7 does not touch the emitted charging stops. -/
theorem short_break_check_detailed_stops (env : Env)
    (cs : List ChargingStation) (p : ℚ) (st : PlanState) :
    (apply_short_break_check env cs p st).detailed_charging_stops =
      st.detailed_charging_stops := by
  unfold apply_short_break_check
  split <;> rfl

/-- Step 8 does not touch the cost dictionary. -/
theorem daily_rest_check_total_costs (p : ℚ) (st : PlanState) :
    (apply_daily_rest_check p st).total_costs = st.total_costs := by
  unfold apply_daily_rest_check
  split <;> rfl

/-- Step 8 does not touch the emitted segments. -/
theorem daily_rest_check_detailed_segments (p : ℚ) (st : PlanState) :
    (apply_daily_rest_check p st).detailed_segments = st.detailed_segments := by
  unfold apply_daily_rest_check
  split <;> rfl

/-- Step 8 does not touch the emitted charging stops. -/
theorem daily_rest_check_detailed_stops (p : ℚ) (st : PlanState) :
    (apply_daily_rest_check p st).detailed_charging_stops =
      st.detailed_charging_stops := by
  unfold apply_daily_rest_check
  split <;> rfl

/-- One staged-loop iteration preserves the cost invariant, and any result it
returns directly is cost-sound. -/
theorem staged_step_costs (env : Env) (request : SingleRouteRequest)
    (truck : TruckModel) (stations : List ChargingStation) (tm : String)
    (sb : ℚ) (dest : Point) (st : PlanState) (h : CostsInv st) :
    (∀ st', staged_step env request truck stations tm sb dest st = Sum.inr st' →
      CostsInv st') ∧
    (∀ r, staged_step env request truck stations tm sb dest st = Sum.inl r →
      ResultCostsOK r) := by
  constructor
  · intro st' hstep
    unfold staged_step at hstep
    dsimp only at hstep
    split at hstep
    · exact absurd hstep (by simp)
    · split at hstep
      · split at hstep
        · exact absurd hstep (by simp)
        · split at hstep
          · exact absurd hstep (by simp)
          · exact absurd hstep (by simp)
      · split at hstep
        · exact absurd hstep (by simp)
        · injection hstep with h'
          subst h'
          unfold CostsInv at h ⊢
          dsimp only
          simp only [daily_rest_check_total_costs,
            daily_rest_check_detailed_segments, daily_rest_check_detailed_stops,
            short_break_check_total_costs, short_break_check_detailed_segments,
            short_break_check_detailed_stops, add_segment_costs,
            add_charging_costs, mk_detailed_segment, mk_detailed_charging_stop,
            create_charging_stop, per_segment_cost, per_stop_cost,
            calculate_segment_costs_dict, List.map_append, List.sum_append,
            List.map_cons, List.sum_cons, List.map_nil, List.sum_nil] at h ⊢
          ring_nf
          ring_nf at h
          linarith [h]
  · intro r hstep
    unfold staged_step at hstep
    dsimp only at hstep
    split at hstep
    · injection hstep with h'
      subst h'
      exact create_error_response_costs _ _
    · split at hstep
      · split at hstep
        · injection hstep with h'
          subst h'
          exact create_error_response_costs _ _
        · split at hstep
          · injection hstep with h'
            subst h'
            exact create_error_response_costs _ _
          · injection hstep with h'
            subst h'
            refine finalize_staged_costs _ _ _ _ _ ?_
            unfold CostsInv at h ⊢
            dsimp only
            simp only [add_segment_costs, add_charging_costs,
              mk_detailed_segment, mk_detailed_charging_stop,
              create_charging_stop, per_segment_cost, per_stop_cost,
              calculate_segment_costs_dict, List.map_append, List.sum_append,
              List.map_cons, List.sum_cons, List.map_nil, List.sum_nil] at h ⊢
            ring_nf
            ring_nf at h
            linarith [h]
      · split at hstep
        · injection hstep with h'
          subst h'
          exact create_error_response_costs _ _
        · exact absurd hstep (by simp)

/-- The staged loop returns cost-sound results from any state satisfying the
cost invariant. -/
theorem staged_loop_costs (env : Env) (request : SingleRouteRequest)
    (truck : TruckModel) (stations : List ChargingStation) (tm : String)
    (sb : ℚ) (dest : Point) :
    ∀ (fuel : Nat) (st : PlanState), CostsInv st →
      ResultCostsOK (staged_loop env request truck stations tm sb dest fuel st) := by
  intro fuel
  induction fuel with
  | zero =>
    intro st h
    exact finalize_staged_costs _ _ _ _ _ h
  | succ fuel ih =>
    intro st h
    rw [staged_loop]
    split
    · exact finalize_staged_costs _ _ _ _ _ h
    · cases hstep : staged_step env request truck stations tm sb dest st with
      | inl r =>
        exact (staged_step_costs env request truck stations tm sb dest st h).2 r hstep
      | inr st' =>
        exact ih st'
          ((staged_step_costs env request truck stations tm sb dest st h).1 st' hstep)

/-- C6: the plan's total cost is the exact sum of the individually computed
per-segment costs (hourly wage x duration + per-km depreciation x distance +
per-km toll x distance) plus the per-stop charging costs (energy charged x
station price per kWh) — no separate energy line item exists in the HEAD cost
dictionary and no category is counted twice. -/
theorem plan_total_cost_additive (env : Env) (request : SingleRouteRequest)
    (truck : TruckModel) (stations : List ChargingStation) (sb : ℚ)
    (tm : String) (u : String) (tc : RouteCosts)
    (htc : (plan_eu_compliant_route env request truck stations sb tm u).total_costs
      = some tc) :
    tc.total_cost_eur =
      ((plan_eu_compliant_route env request truck stations sb tm u).route_segments.map
        per_segment_cost).sum +
      ((plan_eu_compliant_route env request truck stations sb tm u).charging_stops.map
        per_stop_cost).sum := by
  suffices hok : ResultCostsOK (plan_eu_compliant_route env request truck stations sb tm u) from
    hok tc htc
  clear htc
  unfold plan_eu_compliant_route
  dsimp only
  split
  · split
    · intro tc2 htc2
      dsimp only at htc2 ⊢
      simp only [Option.some.injEq] at htc2
      subst htc2
      simp only [mk_route_costs, add_segment_costs, mk_detailed_segment,
        per_segment_cost, per_stop_cost, calculate_segment_costs_dict,
        List.map_cons, List.sum_cons, List.map_nil, List.sum_nil]
      ring
    · refine staged_loop_costs _ _ _ _ _ _ _ _ _ ?_
      simp [CostsInv]
  · refine staged_loop_costs _ _ _ _ _ _ _ _ _ ?_
    simp [CostsInv]

/-- Witness for C6: on the short direct-route scenario the reported total is
17/6 EUR = 35 x (4/60) + 0.05 x 10, matching the segment/stop sums. -/
theorem plan_total_cost_additive_witness :
    ∃ tc : RouteCosts, res_short_a.total_costs = some tc ∧
      tc.total_cost_eur = (res_short_a.route_segments.map per_segment_cost).sum +
        (res_short_a.charging_stops.map per_stop_cost).sum := by
  refine ⟨⟨7 / 3, 1 / 2, 0, 0, 17 / 6⟩, by decide, ?_⟩
  exact plan_total_cost_additive env_short req_demo truck_cons1 [] 400 "One"
    "aaaa" ⟨7 / 3, 1 / 2, 0, 0, 17 / 6⟩ (by decide)

end MainTheorems

end Babs
